import Mathlib

/-!
Verification of the session & data-fetching core of the React blog client:
the request gateway / envelope parser (src/app/utils/api.ts), the session
manager (src/app/context/AuthContext.tsx) and the pagination engine
(the usePagination hook).

JavaScript values appearing in the embedded code are modelled by the
inductive type Json below; JavaScript truthiness, property access
(including the TypeError raised by accessing a property of null) and
string conversion are modelled explicitly.  Thrown exceptions are
modelled by the Except monad.  State updates of React hooks are modelled
as synchronous writes to a single store, following the single-threaded
cooperative-scheduling model of the specification: an async function is
atomic from its entry (or resumption) up to its next await point.
-/

namespace ReactBlog

/-- A parsed JSON value.  Numbers are restricted to integers: every number
occurring in the embedded code paths (HTTP statuses, error payload scalars)
is integral. -/
inductive Json where
  | null : Json
  | bool (b : Bool) : Json
  | num (n : Int) : Json
  | str (s : String) : Json
  | arr (xs : List Json) : Json
  | obj (fields : List (String × Json)) : Json
deriving Repr

/-- JavaScript truthiness of a value: null, false, 0 and the empty string
are falsy; every object and array (even empty) is truthy. -/
def Json.truthy : Json → Bool
  | .null => false
  | .bool b => b
  | .num n => n != 0
  | .str s => s != ""
  | .arr _ => true
  | .obj _ => true

/-- Truthiness of a possibly-undefined value (undefined is falsy). -/
def jsTruthyOpt : Option Json → Bool
  | none => false
  | some v => v.truthy

/-- Property access on a value known not to be null: an object yields the
field if present (undefined otherwise); any other non-null value has no
own properties named by the keys the code reads. -/
def jsGetD (j : Json) (k : String) : Option Json :=
  match j with
  | .obj fields => fields.lookup k
  | _ => none

/-- Property access in general: reading a property of null raises a
TypeError, modelled as the error branch. -/
def jsGet (j : Json) (k : String) : Except Unit (Option Json) :=
  match j with
  | .null => .error ()
  | j => .ok (jsGetD j k)

/-- JavaScript strict equality of a value against a string literal:
true exactly for a string value with the same contents. -/
def jsStrictEqStr (x : Json) (s : String) : Bool :=
  match x with
  | .str v => v == s
  | _ => false

/-- Strict equality of a possibly-undefined value against a string
literal (undefined compares unequal). -/
def optIsStr (x : Option Json) (s : String) : Bool :=
  match x with
  | some v => jsStrictEqStr v s
  | none => false

/-- The JavaScript expression a || b for a possibly-undefined a:
the value a if truthy, the default b otherwise. -/
def jsOr (a : Option Json) (b : Json) : Json :=
  match a with
  | some v => if v.truthy then v else b
  | none => b

mutual
/-- JavaScript String(v) conversion for the values reaching the
error-stringification sites: arrays join their elements with commas
(null elements becoming empty strings), objects print generically. -/
def jsToString : Json → String
  | .null => "null"
  | .bool true => "true"
  | .bool false => "false"
  | .num n => toString n
  | .str s => s
  | .arr xs => String.intercalate "," (jsToStringList xs)
  | .obj _ => "[object Object]"

def jsToStringList : List Json → List String
  | [] => []
  | .null :: rest => "" :: jsToStringList rest
  | x :: rest => jsToString x :: jsToStringList rest
end

/-- Calling toString() on an array element: null has no toString, so a
null element raises a TypeError. -/
def elemToString : Json → Except Unit String
  | .null => .error ()
  | v => .ok (jsToString v)

/-- Elementwise toString over an array value, stopping at the first
TypeError, in order. -/
def elemsToStrings : List Json → Except Unit (List String)
  | [] => .ok []
  | v :: rest => do
    let s ← elemToString v
    let tail ← elemsToStrings rest
    .ok (s :: tail)

/-- Substring test on character lists. -/
def charsContain (pat : List Char) : List Char → Bool
  | [] => pat.isEmpty
  | c :: rest => pat.isPrefixOf (c :: rest) || charsContain pat rest

/-- Substring test on strings (String.prototype.includes for strings). -/
def strContains (s pat : String) : Bool :=
  charsContain pat.data s.data

/-- The call detail.includes(pat) of the CSRF branch, for a truthy detail:
strings test substring containment, arrays test membership, and any other
value has no includes method, raising a TypeError. -/
def detailIncludes (d : Json) (pat : String) : Except Unit Bool :=
  match d with
  | .str s => .ok (strContains s pat)
  | .arr xs => .ok (xs.any (fun x => jsStrictEqStr x pat))
  | _ => .error ()

/-- Object.entries for the values passing the typeof-object guard of the
HTTP 400 branch: objects list their fields in order, arrays list their
elements under their stringified indices. -/
def jsEntries : Json → List (String × Json)
  | .obj fields => fields
  | .arr xs => (xs.enum).map (fun p => (toString p.1, p.2))
  | _ => []

/-- Response.ok of the fetch API: true exactly for statuses 200-299. -/
def respOk (status : Nat) : Bool :=
  200 ≤ status && status ≤ 299

/-- The structured error objects thrown by apiRequest.  message and errors
carry arbitrary JSON values because the code copies body fields into them
unchanged; code is only present on the auth and csrf throws. -/
structure ThrownErr where
  status : Option Nat
  message : Json
  code : Option Json
  errors : Json
deriving Repr

/-- A value thrown out of apiRequest: a structured error object, a
JavaScript runtime error (TypeError or JSON parse rejection), or a
rejection of fetch itself. -/
inductive Thrown where
  | api (e : ThrownErr) : Thrown
  | js (msg : String) : Thrown
  | network : Thrown
deriving Repr

/-- The observable outcome of one fetch call: either the transport fails
(promise rejection), or a response arrives with an HTTP status, a status
text, and a body — none when response.json() rejects, some parsed value
otherwise.  response.ok is derived from the status as fetch defines it. -/
inductive FetchOutcome where
  | netFail : FetchOutcome
  | response (status : Nat) (statusText : String) (body : Option Json) : FetchOutcome
deriving Repr

/-- The per-field error mapping of the HTTP 400 validation branch, in
source order: array values map elementwise through toString (a null
element raising a TypeError), non-null object values collapse to the
single entry "Invalid data", truthy scalars wrap to a one-element list,
and falsy values contribute no entry. -/
def entryErrorsM : List (String × Json) → Except Unit (List (String × List String))
  | [] => .ok []
  | (f, v) :: rest =>
    match v with
    | .arr xs => do
        let strs ← elemsToStrings xs
        let tail ← entryErrorsM rest
        .ok ((f, strs) :: tail)
    | .obj _ => do
        let tail ← entryErrorsM rest
        .ok ((f, ["Invalid data"]) :: tail)
    | v => if v.truthy then do
        let tail ← entryErrorsM rest
        .ok ((f, [jsToString v]) :: tail)
      else entryErrorsM rest

/-- Packs a field-error list into the JSON object stored in the thrown
error's errors field. -/
def errsToJson (errs : List (String × List String)) : Json :=
  .obj (errs.map (fun p => (p.1, Json.arr (p.2.map Json.str))))

/-- The request gateway and envelope parser, apiRequest of
src/app/utils/api.ts, as a function of the fetch outcome.  .ok is the
value returned to the caller, .error a thrown value. -/
def apiRequest (o : FetchOutcome) : Except Thrown Json :=
  match o with
  | .netFail => .error .network
  | .response httpStatus statusText body =>
    match body with
    | none => .error (.js "invalid json")
    | some rd =>
      match jsGet rd "status" with
      | .error _ => .error (.js "cannot read properties of null")
      | .ok statusField =>
        if jsTruthyOpt statusField then
          if optIsStr statusField "error" then
            .error (.api
              { status := some httpStatus
                message := jsOr (jsGetD rd "message") (.str statusText)
                code := none
                errors := jsOr (jsGetD rd "errors") (.obj []) })
          else
            .ok rd
        else if respOk httpStatus then
          .ok (.obj [("status", .str "success"),
                     ("message", .str "Request successful"),
                     ("data", rd)])
        else
          let detail := jsGetD rd "detail"
          let codeF := jsGetD rd "code"
          if jsTruthyOpt detail &&
             (optIsStr codeF "token_not_valid" ||
              optIsStr detail "Authentication credentials were not provided.") then
            .error (.api
              { status := some httpStatus
                message := jsOr detail .null
                code := some (jsOr codeF (.str "auth_error"))
                errors := .obj [("auth",
                  .arr [.str "Authentication failed. Please log in again."])] })
          else
            let csrfCheck : Except Unit Bool :=
              if httpStatus == 403 && jsTruthyOpt detail then
                detailIncludes (jsOr detail .null) "CSRF"
              else .ok false
            match csrfCheck with
            | .error _ => .error (.js "includes is not a function")
            | .ok true =>
              .error (.api
                { status := some 403
                  message := .str "CSRF validation failed"
                  code := some (.str "csrf_error")
                  errors := .obj [("csrf",
                    .arr [.str "CSRF validation failed. Please refresh the page and try again."])] })
            | .ok false =>
              if httpStatus == 400 &&
                 (match rd with | .obj _ => true | .arr _ => true | _ => false) then
                match entryErrorsM (jsEntries rd) with
                | .error _ => .error (.js "toString is not a function")
                | .ok errs =>
                  .error (.api
                    { status := some httpStatus
                      message := .str "Validation failed"
                      code := none
                      errors := if errs.length > 0 then errsToJson errs
                        else errsToJson [("form", ["Form validation failed"])] })
              else
                .error (.api
                  { status := some httpStatus
                    message := jsOr detail (.str statusText)
                    code := none
                    errors := jsOr (jsGetD rd "errors") rd })

/-- refreshAuthToken of src/app/utils/api.ts as a function of the outcome
of its fetch to the refresh endpoint: true only when the response is OK
and its JSON body has status strictly equal to "success"; every throw
(network failure, json rejection) is caught and mapped to false. -/
def refreshAuthToken (o : FetchOutcome) : Bool :=
  match o with
  | .netFail => false
  | .response httpStatus _ body =>
    if respOk httpStatus then
      match body with
      | none => false
      | some b => optIsStr (jsGetD b "status") "success"
    else false

/-- The auth-error test of validateSession's catch block:
err.status === 401 or err.code === 'token_not_valid' (a thrown runtime
error or network rejection has neither property). -/
def isAuthErr : Thrown → Bool
  | .api e => e.status == some 401 || optIsStr e.code "token_not_valid"
  | _ => false

/-- The envelope-success test used by validateSession, login and the
pagination hook: response.status === 'success' and response.data truthy. -/
def respSuccessWithData (resp : Json) : Bool :=
  optIsStr (jsGetD resp "status") "success" && jsTruthyOpt (jsGetD resp "data")

/-- The observable result of one validateSession run: the final user value
and how many times the /users/me endpoint and the refresh endpoint were
called. -/
structure ValidateResult where
  user : Option Json
  meCalls : Nat
  refreshCalls : Nat
deriving Repr

/-- validateSession of src/app/context/AuthContext.tsx as a function of
the fetch outcomes of (at most) three network calls: the first /users/me
request, the refresh request, and the retried /users/me request.  The
user starts as null; setUser is a synchronous store write; the final
isLoading update is not tracked here. -/
def validateSession (meOut refreshOut retryOut : FetchOutcome) : ValidateResult :=
  match apiRequest meOut with
  | .ok resp =>
    if respSuccessWithData resp then
      { user := jsGetD resp "data", meCalls := 1, refreshCalls := 0 }
    else
      { user := none, meCalls := 1, refreshCalls := 0 }
  | .error err =>
    if isAuthErr err then
      if refreshAuthToken refreshOut then
        match apiRequest retryOut with
        | .ok retryResp =>
          if respSuccessWithData retryResp then
            { user := jsGetD retryResp "data", meCalls := 2, refreshCalls := 1 }
          else
            { user := none, meCalls := 2, refreshCalls := 1 }
        | .error _ =>
          { user := none, meCalls := 2, refreshCalls := 1 }
      else
        { user := none, meCalls := 1, refreshCalls := 1 }
    else
      { user := none, meCalls := 1, refreshCalls := 0 }

/-- logout of src/app/context/AuthContext.tsx: the POST to the logout
endpoint runs inside try/catch, and the finally block unconditionally
clears the user, whatever the outcome. -/
def logoutUser (o : FetchOutcome) (_user : Option Json) : Option Json :=
  match apiRequest o with
  | .ok _ => none
  | .error _ => none

/-- The isAuthenticated flag exposed by AuthProvider: derived from the
user value alone (isAuthenticated: !!user). -/
def isAuthenticated (user : Option Json) : Bool :=
  user.isSome

/-! ## The pagination engine (usePagination hook)

The hook is generic in the item type T, mirroring the source.  Network
replies are seen by the hook under the ApiResponse type of
src/app/utils/api.ts, mirrored by ApiEnvelope below; a thrown apiRequest
is the .error branch of the Except argument. -/

/-- The pagination block of the ApiResponse type. -/
structure PaginationInfo where
  next : Option String
  previous : Option String
  page_size : Nat
deriving BEq, DecidableEq, Repr

/-- The ApiResponse shape as the hook reads it: status, message, data and
pagination; fields the runtime may leave undefined are Options. -/
structure ApiEnvelope (T : Type) where
  status : String
  message : Option String
  data : Option (List T)
  errors : Option (List (String × List String))
  pagination : Option PaginationInfo

/-- The hook's state: the five useState cells of usePagination. -/
structure PagState (T : Type) where
  data : List T
  isLoading : Bool
  isLoadingMore : Bool
  error : Option String
  nextPageUrl : Option String

/-- The expression response.pagination?.next || null storing the next
cursor: undefined pagination, undefined next and the empty string all
collapse to null. -/
def pagNext (p : Option PaginationInfo) : Option String :=
  match p with
  | some pi =>
    match pi.next with
    | some s => if s == "" then none else some s
    | none => none
  | none => none

/-- The expression m || d for a possibly-undefined string m. -/
def strOrDefault (m : Option String) (d : String) : String :=
  match m with
  | some s => if s == "" then d else s
  | none => d

/-- JavaScript truthiness of the nextPageUrl cell (null and the empty
string are falsy). -/
def jsUrlTruthy : Option String → Bool
  | none => false
  | some s => s != ""

/-- The success test of fetchData: response.status === 'success' and
response.data truthy (an array value, even empty, is truthy). -/
def envSuccess {T : Type} (out : Except Unit (ApiEnvelope T)) : Bool :=
  match out with
  | .ok r => r.status == "success" && r.data.isSome
  | .error _ => false

/-- The resumption of fetchData(url, reset) after its awaited apiRequest
settles: on envelope success it replaces (reset) or appends (not reset)
the data, stores the pagination cursor and clears the error; on an
unsuccessful envelope it clears the data when resetting and records the
envelope message (with a fallback); on a throw it records the generic
message and clears the data when resetting.  The finally block clears
isLoading in every case.  nextPageUrl is untouched on failure. -/
def fetchDataFinish {T : Type} (reset : Bool)
    (out : Except Unit (ApiEnvelope T)) (s : PagState T) : PagState T :=
  match out with
  | .ok r =>
    if r.status == "success" && r.data.isSome then
      { s with
        data := if reset then r.data.getD [] else s.data ++ r.data.getD []
        nextPageUrl := pagNext r.pagination
        error := none
        isLoading := false }
    else
      { s with
        data := if reset then [] else s.data
        error := some (strOrDefault r.message "Failed to load data")
        isLoading := false }
  | .error _ =>
    { s with
      data := if reset then [] else s.data
      error := some "Failed to load data. Please try again later."
      isLoading := false }

/-- The synchronous prefix of a loadMore() invocation, up to the first
await point: the reentrancy guard returns immediately (no request issued,
state untouched) when nextPageUrl is falsy or isLoadingMore is set;
otherwise it sets isLoadingMore, enters fetchData(nextPageUrl, false)
which sets isLoading and issues the request, and suspends.  The second
component is the URL of the request issued, none when no request is
issued. -/
def loadMoreStart {T : Type} (s : PagState T) : PagState T × Option String :=
  if !(jsUrlTruthy s.nextPageUrl) || s.isLoadingMore then (s, none)
  else ({ s with isLoadingMore := true, isLoading := true }, s.nextPageUrl)

/-- The resumption of loadMore() after its awaited fetchData settles:
fetchData's own resumption with reset = false, then the finally block
clears isLoadingMore. -/
def loadMoreFinish {T : Type} (out : Except Unit (ApiEnvelope T))
    (s : PagState T) : PagState T :=
  { fetchDataFinish false out s with isLoadingMore := false }

/-- The synchronous prefix of refresh(), i.e. fetchData(initialUrl, true)
up to the first await: sets isLoading and issues the request to the
initial locator. -/
def refreshStart {T : Type} (s : PagState T) : PagState T :=
  { s with isLoading := true }

/-- The resumption of refresh() after its awaited apiRequest settles:
fetchData's resumption with reset = true. -/
def refreshFinish {T : Type} (out : Except Unit (ApiEnvelope T))
    (s : PagState T) : PagState T :=
  fetchDataFinish true out s

/-! ## The viewport trigger binding (intersection observer ownership) -/

/-- The observer ownership state: the handle stored in the observer ref
(never nulled by the code), the set of live (not yet disconnected)
handles, and a fresh-handle counter. -/
structure ObsState where
  current : Option Nat
  active : List Nat
  nextId : Nat
deriving Repr

/-- The hook's initial observer state: useRef(null), no handle created. -/
def obsInit : ObsState := { current := none, active := [], nextId := 0 }

/-- observer.current.disconnect() guarded by if (observer.current):
removes the current handle from the live set. -/
def disconnectCurrent (st : ObsState) : List Nat :=
  match st.current with
  | some h => st.active.filter (fun x => x ≠ h)
  | none => st.active

/-- The events acting on the observer ownership: a call of
lastElementRef (with the isLoadingMore flag it reads and whether the node
argument is non-null), and the effect-cleanup teardown. -/
inductive ObsEvent where
  | bind (isLoadingMore : Bool) (nodePresent : Bool) : ObsEvent
  | teardown : ObsEvent

/-- One step of the observer ownership relation, from lastElementRef and
the effect cleanup of the hook: lastElementRef returns at once when
isLoadingMore is set; otherwise it disconnects the prior handle, then
constructs a fresh observer (which becomes current and live, whether or
not a node is observed).  Teardown disconnects the current handle. -/
def obsStep (st : ObsState) : ObsEvent → ObsState
  | .bind true _ => st
  | .bind false _ =>
    { current := some st.nextId
      active := disconnectCurrent st ++ [st.nextId]
      nextId := st.nextId + 1 }
  | .teardown => { st with active := disconnectCurrent st }

/-- Running the engine's whole lifetime from the initial state. -/
def obsRun (evs : List ObsEvent) : ObsState :=
  evs.foldl obsStep obsInit

/-! ## Spec-side characterizations -/

/-- Per the amended validation claim: array values map elementwise to
strings preserving order and values, object values collapse to the single
entry "Invalid data", truthy scalar values wrap to a one-element list,
and falsy scalar values produce no entry for their field. -/
def specFieldErrors (fields : List (String × Json)) : List (String × List String) :=
  fields.filterMap (fun p =>
    match p.2 with
    | .arr xs => some (p.1, xs.map jsToString)
    | .obj _ => some (p.1, ["Invalid data"])
    | v => if v.truthy then some (p.1, [jsToString v]) else none)

/-- Per the validation claim: the per-field mapping, falling back to the
single form entry when no field produced an entry. -/
def specValidationErrors (fields : List (String × Json)) : List (String × List String) :=
  let e := specFieldErrors fields
  if e.isEmpty then [("form", ["Form validation failed"])] else e

/-- Test that a value is not JSON null. -/
def notNull : Json → Bool
  | .null => false
  | _ => true

/-- No array value of the body contains a null element (the condition
under which the elementwise stringification cannot raise). -/
def noNullArrayElem (fields : List (String × Json)) : Bool :=
  fields.all (fun p =>
    match p.2 with
    | .arr xs => xs.all notNull
    | _ => true)

/-- The request outcomes the gateway classifies as failures: transport
failure (fetch rejection or json rejection), a null body (whose property
access faults), a body whose status field equals "error", and any non-OK
HTTP status for a body without a truthy status field.  (A non-OK response
whose body carries a truthy status field other than "error" is returned
to the caller unchanged, not treated as a failure.) -/
def expectedFailure (o : FetchOutcome) : Bool :=
  match o with
  | .netFail => true
  | .response httpStatus _ body =>
    match body with
    | none => true
    | some .null => true
    | some rd =>
      if jsTruthyOpt (jsGetD rd "status") then
        optIsStr (jsGetD rd "status") "error"
      else
        !(respOk httpStatus)

/-! ## Helper lemmas -/

lemma jsTruthyOpt_isSome {x : Option Json} (h : jsTruthyOpt x = true) : x.isSome := by
  cases x with
  | none => simp [jsTruthyOpt] at h
  | some v => rfl

lemma elemsToStrings_eq (xs : List Json) (h : ∀ x ∈ xs, x ≠ Json.null) :
    elemsToStrings xs = .ok (xs.map jsToString) := by
  induction xs with
  | nil => rfl
  | cons x rest ih =>
    have hx : x ≠ Json.null := h x (List.mem_cons_self x rest)
    have hrest := ih (fun y hy => h y (List.mem_cons_of_mem x hy))
    cases x <;> simp_all [elemsToStrings, elemToString, Bind.bind, Except.bind]

lemma notNull_ne {x : Json} (h : notNull x = true) : x ≠ Json.null := by
  cases x <;> simp_all [notNull]

lemma entryErrorsM_eq_spec (fields : List (String × Json))
    (h : noNullArrayElem fields = true) :
    entryErrorsM fields = .ok (specFieldErrors fields) := by
  induction fields with
  | nil => rfl
  | cons p rest ih =>
    obtain ⟨f, v⟩ := p
    have hrest : noNullArrayElem rest = true := by
      simp only [noNullArrayElem, List.all_cons, Bool.and_eq_true] at h
      exact h.2
    have ihr := ih hrest
    cases v with
    | arr xs =>
      have hxs : ∀ x ∈ xs, x ≠ Json.null := by
        simp only [noNullArrayElem, List.all_cons, Bool.and_eq_true,
          List.all_eq_true] at h
        exact fun x hx => notNull_ne (h.1 x hx)
      simp [entryErrorsM, specFieldErrors, elemsToStrings_eq xs hxs, ihr,
        Bind.bind, Except.bind, List.filterMap_cons]
    | obj o =>
      simp [entryErrorsM, specFieldErrors, List.filterMap_cons, ihr,
        Bind.bind, Except.bind]
    | null =>
      simp [entryErrorsM, specFieldErrors, List.filterMap_cons, ihr, Json.truthy]
    | bool b =>
      cases b <;>
        simp [entryErrorsM, specFieldErrors, List.filterMap_cons, ihr,
          Json.truthy, Bind.bind, Except.bind]
    | num n =>
      by_cases hn : n = 0 <;>
        simp [entryErrorsM, specFieldErrors, List.filterMap_cons, ihr,
          Json.truthy, hn, Bind.bind, Except.bind]
    | str s =>
      by_cases hs : s = "" <;>
        simp [entryErrorsM, specFieldErrors, List.filterMap_cons, ihr,
          Json.truthy, hs, Bind.bind, Except.bind]

/-! ## Claim C2: propagation policy of the request gateway -/

/-- Claim C2, counterexample: a backend reply with status "error" is not
returned as a value of the envelope union — apiRequest raises, throwing a
structured error object, so the gateway does not satisfy "never raises;
all outcomes are represented in the returned union". -/
theorem apiRequest_raises_cex :
    apiRequest (.response 422 "Unprocessable Entity"
        (some (.obj [("status", .str "error"), ("message", .str "Bad input")]))) =
      .error (.api { status := some 422, message := .str "Bad input",
                     code := none, errors := .obj [] }) := rfl

/-- Claim C2, amended: apiRequest raises for exactly the expected failure
modes — a transport failure, a body that cannot be parsed or is null, a
backend envelope with status "error", and any non-OK HTTP reply whose
body has no truthy status field are all thrown to the caller as
classified errors; only success-shaped outcomes are returned. -/
theorem apiRequest_failures_thrown (o : FetchOutcome) :
    (apiRequest o).isOk = !(expectedFailure o) := by
  cases o with
  | netFail => rfl
  | response st txt body =>
    cases body with
    | none => rfl
    | some rd =>
      cases rd <;>
        simp only [apiRequest, expectedFailure, jsGet] <;>
        (repeat' split) <;>
        simp_all [Except.isOk, Except.toBool]

/-! ## Claim C6: OK responses with unrecognized bodies -/

/-- A 200 body whose status field is truthy but not a recognized value. -/
def weirdStatusBody : Json := .obj [("status", .str "weird"), ("foo", .num 1)]

/-- Claim C6, counterexample: an OK response whose body carries the
unrecognized status "weird" is returned to the caller as-is — its data
field is absent and its status is not "success" — rather than wrapped
whole as Success.data as the claim requires for every body without a
recognized status. -/
theorem ok_unrecognized_status_cex :
    apiRequest (.response 200 "OK" (some weirdStatusBody)) = .ok weirdStatusBody ∧
    jsGetD weirdStatusBody "data" = none ∧
    jsGetD weirdStatusBody "status" = some (.str "weird") ∧
    Json.str "weird" ≠ Json.str "success" :=
  ⟨rfl, rfl, rfl, fun h => absurd (Json.str.inj h) (by decide)⟩

/-- Claim C6, amended: for every response with an OK HTTP status whose
non-null JSON body has no truthy status field, apiRequest returns Success
wrapping the entire body as data with a generic message, and does not
throw.  (A body with a truthy status field other than "error" is returned
as-is without wrapping, and a null body raises a TypeError.) -/
theorem apiRequest_ok_wraps (st : Nat) (txt : String) (rd : Json)
    (hok : respOk st = true) (hnull : rd ≠ Json.null)
    (hsf : jsTruthyOpt (jsGetD rd "status") = false) :
    apiRequest (.response st txt (some rd)) =
      .ok (.obj [("status", .str "success"),
                 ("message", .str "Request successful"),
                 ("data", rd)]) := by
  cases rd <;> simp_all [apiRequest, jsGet]

/-- Witness for the amended C6 claim at a concrete OK response with an
envelope-less body. -/
theorem apiRequest_ok_wraps_witness :
    apiRequest (.response 200 "OK" (some (.arr [.num 1, .num 2]))) =
      .ok (.obj [("status", .str "success"),
                 ("message", .str "Request successful"),
                 ("data", .arr [.num 1, .num 2])]) :=
  apiRequest_ok_wraps 200 "OK" (.arr [.num 1, .num 2]) rfl (by simp) rfl

/-! ## Claim C5: the HTTP 400 validation branch -/

/-- Claim C5, counterexample: an HTTP 400 object body whose only field
holds the falsy scalar 0 produces the synthesized form entry, not a
one-element list for that field — the top-level key "age" does not become
a field of field_errors. -/
theorem validation_falsy_scalar_cex :
    apiRequest (.response 400 "Bad Request" (some (.obj [("age", .num 0)]))) =
      .error (.api { status := some 400, message := .str "Validation failed",
                     code := none,
                     errors := .obj [("form",
                       .arr [.str "Form validation failed"])] }) ∧
    jsGetD (Json.obj [("form", .arr [.str "Form validation failed"])]) "age" =
      none :=
  ⟨rfl, rfl⟩

/-- Claim C5, amended: for every HTTP 400 response with a non-null object
body (no truthy status field, no auth marker, no null element inside an
array value), apiRequest throws the validation error whose field_errors
map each top-level key as follows: array values map elementwise to
strings preserving order and values, object values collapse to the single
entry "Invalid data", truthy scalar values wrap to a one-element list,
falsy scalar values produce no entry; if no field produced an entry the
map is the single synthesized entry form = "Form validation failed". -/
theorem validation_field_mapping (fields : List (String × Json)) (txt : String)
    (hnn : noNullArrayElem fields = true)
    (hsf : jsTruthyOpt (jsGetD (.obj fields) "status") = false)
    (hauth : (jsTruthyOpt (jsGetD (.obj fields) "detail") &&
        (optIsStr (jsGetD (.obj fields) "code") "token_not_valid" ||
         optIsStr (jsGetD (.obj fields) "detail")
           "Authentication credentials were not provided.")) = false) :
    apiRequest (.response 400 txt (some (.obj fields))) =
      .error (.api { status := some 400, message := .str "Validation failed",
                     code := none,
                     errors := errsToJson (specValidationErrors fields) }) := by
  have hent := entryErrorsM_eq_spec fields hnn
  simp only [apiRequest, jsGet, hsf, hauth, Bool.false_eq_true, if_false,
    respOk]
  norm_num
  simp only [jsEntries, hent, specValidationErrors]
  cases hE : specFieldErrors fields with
  | nil => simp [hE]
  | cons e rest => simp [hE]

/-- Witness for the amended C5 claim at a concrete 400 body exercising an
array value, an object value, a falsy scalar and a truthy scalar. -/
theorem validation_field_mapping_witness :
    apiRequest (.response 400 "Bad Request" (some (.obj
        [("name", .arr [.str "required", .str "too short"]),
         ("profile", .obj [("x", .num 1)]),
         ("age", .num 0),
         ("bio", .str "bad")]))) =
      .error (.api { status := some 400, message := .str "Validation failed",
                     code := none,
                     errors := .obj
                       [("name", .arr [.str "required", .str "too short"]),
                        ("profile", .arr [.str "Invalid data"]),
                        ("bio", .arr [.str "bad"])] }) :=
  validation_field_mapping
    [("name", .arr [.str "required", .str "too short"]),
     ("profile", .obj [("x", .num 1)]),
     ("age", .num 0),
     ("bio", .str "bad")] "Bad Request" rfl rfl rfl

/-! ## Claim C4: startup session validation with single refresh -/

/-- Claim C4: when the startup /users/me call fails with an auth error,
validateSession performs exactly one refresh call; if the refresh
succeeds it re-issues /users/me exactly once, ending authenticated with
the retried user's data when the retry succeeds and unauthenticated
otherwise (retry unsuccessful or thrown); if the refresh fails it ends
unauthenticated without re-issuing /users/me; no second refresh is ever
chained. -/
theorem validateSession_single_refresh
    (meOut refreshOut retryOut : FetchOutcome) (e : Thrown)
    (hme : apiRequest meOut = .error e) (hauth : isAuthErr e = true) :
    (validateSession meOut refreshOut retryOut).refreshCalls = 1 ∧
    (refreshAuthToken refreshOut = true →
      (validateSession meOut refreshOut retryOut).meCalls = 2 ∧
      (∀ resp, apiRequest retryOut = .ok resp →
        respSuccessWithData resp = true →
        (validateSession meOut refreshOut retryOut).user = jsGetD resp "data" ∧
        isAuthenticated (validateSession meOut refreshOut retryOut).user = true) ∧
      (∀ resp, apiRequest retryOut = .ok resp →
        respSuccessWithData resp = false →
        (validateSession meOut refreshOut retryOut).user = none) ∧
      (∀ e2, apiRequest retryOut = .error e2 →
        (validateSession meOut refreshOut retryOut).user = none)) ∧
    (refreshAuthToken refreshOut = false →
      (validateSession meOut refreshOut retryOut).meCalls = 1 ∧
      (validateSession meOut refreshOut retryOut).user = none) := by
  unfold validateSession
  rw [hme]
  simp only [hauth, if_true]
  cases hr : refreshAuthToken refreshOut with
  | true =>
    cases hretry : apiRequest retryOut with
    | ok resp =>
      cases hs : respSuccessWithData resp with
      | true =>
        have hdata : (jsGetD resp "data").isSome := by
          have h3 := hs
          simp only [respSuccessWithData, Bool.and_eq_true] at h3
          exact jsTruthyOpt_isSome h3.2
        simp_all [isAuthenticated]
      | false => simp_all
    | error e2 => simp_all
  | false => simp_all

/-- Witness for C4: an auth-failing first call, a successful refresh and
a successful retry end authenticated with the retried user. -/
theorem validateSession_single_refresh_witness :
    (validateSession
        (.response 401 "Unauthorized"
          (some (.obj [("detail",
            .str "Authentication credentials were not provided.")])))
        (.response 200 "OK" (some (.obj [("status", .str "success")])))
        (.response 200 "OK" (some (.obj [("status", .str "success"),
          ("data", .obj [("id", .num 7), ("username", .str "sam")])])))).refreshCalls
      = 1 ∧
    (validateSession
        (.response 401 "Unauthorized"
          (some (.obj [("detail",
            .str "Authentication credentials were not provided.")])))
        (.response 200 "OK" (some (.obj [("status", .str "success")])))
        (.response 200 "OK" (some (.obj [("status", .str "success"),
          ("data", .obj [("id", .num 7), ("username", .str "sam")])])))).user
      = some (.obj [("id", .num 7), ("username", .str "sam")]) := by
  have h := validateSession_single_refresh
    (.response 401 "Unauthorized"
      (some (.obj [("detail",
        .str "Authentication credentials were not provided.")])))
    (.response 200 "OK" (some (.obj [("status", .str "success")])))
    (.response 200 "OK" (some (.obj [("status", .str "success"),
      ("data", .obj [("id", .num 7), ("username", .str "sam")])])))
    (.api { status := some 401,
            message := .str "Authentication credentials were not provided.",
            code := some (.str "auth_error"),
            errors := .obj [("auth",
              .arr [.str "Authentication failed. Please log in again."])] })
    rfl rfl
  refine ⟨h.1, ?_⟩
  have h2 := (h.2.1 rfl).2.1 _ rfl rfl
  exact h2.1

/-! ## Claim C8: logout always ends unauthenticated -/

/-- Claim C8: whatever the outcome of the logout request — success,
thrown failure, or an unreachable server — the session ends with the user
cleared and isAuthenticated false; logout is never blocked by network
failure. -/
theorem logout_always_clears_user (o : FetchOutcome) (u : Option Json) :
    logoutUser o u = none ∧ isAuthenticated (logoutUser o u) = false := by
  unfold logoutUser
  cases apiRequest o <;> exact ⟨rfl, rfl⟩

/-! ## Claim C1: loadMore reentrancy guard -/

/-- Claim C1: loadMore() is a no-op (state untouched, no request issued)
whenever nextCursor is absent or isLoadingMore is already set, and when a
first invocation passes the guard and issues its request, a second
invocation arriving before the first resolves issues no request —
overlapping triggers collapse to a single in-flight request. -/
theorem loadMore_reentrancy_guard {T : Type} (s : PagState T) :
    ((s.nextPageUrl = none ∨ s.isLoadingMore = true) →
      loadMoreStart s = (s, none)) ∧
    (∀ u, s.nextPageUrl = some u → u ≠ "" → s.isLoadingMore = false →
      (loadMoreStart s).2 = some u ∧
      (loadMoreStart (loadMoreStart s).1).2 = none) := by
  constructor
  · rintro (h | h) <;> simp [loadMoreStart, h, jsUrlTruthy]
  · intro u hu hne hlm
    simp [loadMoreStart, hu, hne, hlm, jsUrlTruthy]

/-- Witness for C1: from an idle state holding a cursor, the first
invocation issues the request and the overlapping second one issues
none; from a state already loading more, the invocation is a no-op. -/
theorem loadMore_reentrancy_guard_witness :
    (loadMoreStart (⟨["a"], false, false, none, some "page2"⟩ :
        PagState String)).2 = some "page2" ∧
    (loadMoreStart (loadMoreStart (⟨["a"], false, false, none, some "page2"⟩ :
        PagState String)).1).2 = none ∧
    loadMoreStart (⟨["a"], true, true, none, some "page2"⟩ :
        PagState String) = (⟨["a"], true, true, none, some "page2"⟩, none) := by
  have h1 := (loadMore_reentrancy_guard
    (⟨["a"], false, false, none, some "page2"⟩ : PagState String)).2
    "page2" rfl (by decide) rfl
  have h2 := (loadMore_reentrancy_guard
    (⟨["a"], true, true, none, some "page2"⟩ : PagState String)).1
    (Or.inr rfl)
  exact ⟨h1.1, h1.2, h2⟩

/-! ## Claim C3: refresh racing a stale loadMore completion -/

/-- A success envelope carrying the given page and next cursor, as the
hook sees one. -/
def okPage (items : List String) (next : Option String) :
    Except Unit (ApiEnvelope String) :=
  .ok { status := "success"
        message := some "ok"
        data := some items
        errors := none
        pagination := match next with
          | some u => some { next := some u, previous := none, page_size := 10 }
          | none => none }

/-- The interleaving in which a loadMore request is issued, a refresh
starts and completes (resetting the items to the new first page) while
that loadMore request is still in flight, and then the stale loadMore
response arrives. -/
def staleRaceFinal : PagState String :=
  let s0 : PagState String :=
    { data := ["a"], isLoading := false, isLoadingMore := false,
      error := none, nextPageUrl := some "page2" }
  let s1 := (loadMoreStart s0).1
  let s2 := refreshStart s1
  let s3 := refreshFinish (okPage ["b"] none) s2
  loadMoreFinish (okPage ["c"] none) s3

/-- Claim C3 is violated by the code: the hook carries no generation
counter, so the stale loadMore completion is appended to the items the
refresh produced instead of being discarded — the final items are the
refreshed page followed by the stale page, not the refreshed page
alone. -/
theorem stale_loadMore_applied_after_refresh :
    staleRaceFinal.data = ["b", "c"] ∧ staleRaceFinal.data ≠ ["b"] :=
  ⟨rfl, by decide⟩

/-! ## Claim C7: refresh replaces items wholesale -/

/-- Claim C7: for every prior state and request outcome, refresh() ends
with isLoading cleared; on a success envelope carrying data it replaces
items wholesale with the returned first page (same list, hence exactly
its length) and stores the cursor from the envelope's pagination
metadata (absent if none), clearing the error; on any other outcome it
clears items and records an error. -/
theorem refresh_replaces_wholesale {T : Type} (s : PagState T)
    (out : Except Unit (ApiEnvelope T)) :
    (∀ r page, out = .ok r → r.status = "success" → r.data = some page →
      (refreshFinish out (refreshStart s)).data = page ∧
      (refreshFinish out (refreshStart s)).data.length = page.length ∧
      (refreshFinish out (refreshStart s)).nextPageUrl = pagNext r.pagination ∧
      (refreshFinish out (refreshStart s)).error = none) ∧
    (envSuccess out = false →
      (refreshFinish out (refreshStart s)).data = [] ∧
      ((refreshFinish out (refreshStart s)).error).isSome = true) ∧
    (refreshFinish out (refreshStart s)).isLoading = false := by
  refine ⟨?_, ?_, ?_⟩
  · intro r page hout hst hdata
    subst hout
    simp [refreshFinish, refreshStart, fetchDataFinish, hst, hdata]
  · intro hfail
    cases out with
    | ok r =>
      simp only [envSuccess] at hfail
      simp [refreshFinish, refreshStart, fetchDataFinish, hfail]
    | error u => simp [refreshFinish, refreshStart, fetchDataFinish]
  · cases out with
    | ok r =>
      by_cases hc : (r.status == "success" && r.data.isSome) = true <;>
        simp [refreshFinish, refreshStart, fetchDataFinish, hc]
    | error u => simp [refreshFinish, refreshStart, fetchDataFinish]

/-- Witness for C7: a refresh over three accumulated items with a
two-item first page ends with exactly those two items and the new
cursor; a failing refresh clears the items. -/
theorem refresh_replaces_wholesale_witness :
    (refreshFinish (okPage ["a", "b"] (some "page2"))
      (refreshStart (⟨["x", "y", "z"], false, false, none, none⟩ :
        PagState String))).data = ["a", "b"] ∧
    (refreshFinish (okPage ["a", "b"] (some "page2"))
      (refreshStart (⟨["x", "y", "z"], false, false, none, none⟩ :
        PagState String))).nextPageUrl = some "page2" ∧
    (refreshFinish (.error ())
      (refreshStart (⟨["x", "y", "z"], false, false, none, none⟩ :
        PagState String))).data = [] := by
  have h1 := (refresh_replaces_wholesale
    (⟨["x", "y", "z"], false, false, none, none⟩ : PagState String)
    (okPage ["a", "b"] (some "page2"))).1
    _ ["a", "b"] rfl rfl rfl
  have h2 := ((refresh_replaces_wholesale
    (⟨["x", "y", "z"], false, false, none, none⟩ : PagState String)
    (.error ())).2.1 rfl).1
  exact ⟨h1.1, h1.2.2.1, h2⟩

/-! ## Claim C10: loadMore also toggles isLoading -/

/-- Claim C10: a loadMore() invocation that passes the reentrancy guard
sets isLoading (not only isLoadingMore) for the duration of the request,
because it delegates to fetchData, and both flags are cleared on
completion whatever the outcome — isLoading is not an initial-load-only
indicator. -/
theorem loadMore_sets_isLoading {T : Type} (s : PagState T) (u : String)
    (out : Except Unit (ApiEnvelope T))
    (hurl : s.nextPageUrl = some u) (hne : u ≠ "")
    (hlm : s.isLoadingMore = false) :
    (loadMoreStart s).1.isLoading = true ∧
    (loadMoreStart s).1.isLoadingMore = true ∧
    (loadMoreFinish out (loadMoreStart s).1).isLoading = false ∧
    (loadMoreFinish out (loadMoreStart s).1).isLoadingMore = false := by
  have hstart : (loadMoreStart s).1 =
      { s with isLoadingMore := true, isLoading := true } := by
    simp [loadMoreStart, hurl, hne, hlm, jsUrlTruthy]
  refine ⟨by rw [hstart], by rw [hstart], ?_, ?_⟩ <;>
    cases out with
    | ok r =>
      by_cases hc : (r.status == "success" && r.data.isSome) = true <;>
        simp [loadMoreFinish, fetchDataFinish, hc]
    | error u => simp [loadMoreFinish, fetchDataFinish]

/-- Witness for C10 at a concrete idle state and a failing outcome. -/
theorem loadMore_sets_isLoading_witness :
    (loadMoreStart (⟨["a"], false, false, none, some "page2"⟩ :
        PagState String)).1.isLoading = true ∧
    (loadMoreFinish (.error ())
      (loadMoreStart (⟨["a"], false, false, none, some "page2"⟩ :
        PagState String)).1).isLoading = false := by
  have h := loadMore_sets_isLoading
    (⟨["a"], false, false, none, some "page2"⟩ : PagState String)
    "page2" (.error ()) rfl (by decide) rfl
  exact ⟨h.1, h.2.2.1⟩

/-! ## Claim C9: at most one observation handle -/

/-- The ownership invariant: the live handles are empty or exactly the
one stored in the observer ref. -/
def obsInv (st : ObsState) : Prop :=
  st.active = [] ∨ ∃ h, st.current = some h ∧ st.active = [h]

lemma obsInv_init : obsInv obsInit := Or.inl rfl

lemma disconnectCurrent_nil (st : ObsState) (h : obsInv st) :
    disconnectCurrent st = [] ∨
      (st.current = none ∧ disconnectCurrent st = st.active) := by
  cases h with
  | inl hempty =>
    cases hc : st.current with
    | none => exact Or.inr ⟨rfl, by simp [disconnectCurrent, hc]⟩
    | some x => left; simp [disconnectCurrent, hc, hempty]
  | inr hone =>
    obtain ⟨x, hc, ha⟩ := hone
    left
    simp [disconnectCurrent, hc, ha]

lemma obsInv_step (st : ObsState) (e : ObsEvent) (h : obsInv st) :
    obsInv (obsStep st e) := by
  cases e with
  | bind lm node =>
    cases lm with
    | true => exact h
    | false =>
      right
      refine ⟨st.nextId, rfl, ?_⟩
      rcases disconnectCurrent_nil st h with hd | ⟨hc, hd⟩
      · simp [obsStep, hd]
      · cases h with
        | inl hempty => simp [obsStep, hd, hempty]
        | inr hone =>
          obtain ⟨x, hcx, _⟩ := hone
          rw [hc] at hcx
          cases hcx
  | teardown =>
    rcases disconnectCurrent_nil st h with hd | ⟨hc, hd⟩
    · left; simp [obsStep, hd]
    · cases h with
      | inl hempty => left; simp [obsStep, hd, hempty]
      | inr hone =>
        obtain ⟨x, hcx, _⟩ := hone
        rw [hc] at hcx
        cases hcx

lemma obsInv_foldl (evs : List ObsEvent) (st : ObsState) (h : obsInv st) :
    obsInv (evs.foldl obsStep st) := by
  induction evs generalizing st with
  | nil => exact h
  | cons e rest ih => exact ih (obsStep st e) (obsInv_step st e h)

/-- Claim C9: at every point of the engine's lifetime — after any
sequence of lastElementRef rebinds and teardowns — at most one live
observation handle exists: rebinding disconnects the prior handle before
creating the next, and teardown disconnects the current one, so stale
observers never accumulate. -/
theorem observer_at_most_one_handle (evs : List ObsEvent) :
    (obsRun evs).active.length ≤ 1 := by
  have h := obsInv_foldl evs obsInit obsInv_init
  unfold obsRun
  cases h with
  | inl hempty => simp [hempty]
  | inr hone => obtain ⟨x, _, ha⟩ := hone; simp [ha]

end ReactBlog
